import Mathlib

/-!
Verification of the AIX log-collection parsing/normalization core.

The definitions below are a shallow embedding of the Python sources:
  * `collect_errpt_data` / `collect_syslog_data-style entry building`
    from `src/utils/ssh_manager.py`
  * `ErrptCollector._process_errpt_data`, `_extract_severity`, `collect`
    from `src/collectors/errpt_collector.py`
  * `SyslogCollector._process_syslog_data`, `_parse_log_message`,
    `_determine_facility`, `_determine_priority`, `_determine_log_level`,
    `_extract_component`, `_determine_error_type`, `collect`
    from `src/collectors/syslog_collector.py`

Python strings are Lean `String`s; the Python primitives used by the code
(`in`, `split`, `strip`, `lower`, `upper`, `startswith`, slicing) are
embedded below as executable functions over the character data, and the
two fixed regular expressions of the syslog collector are embedded as
explicit scanners with the same leftmost-match semantics.
-/

/-- Python whitespace for `str.strip`. -/
def isSpaceChar (c : Char) : Bool :=
  c == ' ' || c == '\t' || c == '\n' || c == '\r' || c == '\x0b' || c == '\x0c'

/-- Python `s.strip()`. -/
def pyStrip (s : String) : String :=
  String.mk (((s.data.dropWhile isSpaceChar).reverse.dropWhile isSpaceChar).reverse)

/-- Python `s.lower()` (ASCII data throughout this code base). -/
def pyLower (s : String) : String := String.mk (s.data.map Char.toLower)

/-- Python `s.upper()`. -/
def pyUpper (s : String) : String := String.mk (s.data.map Char.toUpper)

/-- Helper for Python `sub in s`: does `sub` occur in `s` starting at some position? -/
def containsAux (sub : List Char) : List Char → Bool
  | [] => sub.isEmpty
  | c :: rest => sub.isPrefixOf (c :: rest) || containsAux sub rest

/-- Python `sub in s`. -/
def pyContains (s sub : String) : Bool := containsAux sub.data s.data

/-- Python `s.startswith(p)`. -/
def pyStartsWith (s p : String) : Bool := p.data.isPrefixOf s.data

/-- Fuel-driven core of Python `s.split(sep)` for a non-empty separator.
The fuel starts at the length of `s`; every step consumes at least one
character, so the fuel never runs out on the initial call. -/
def splitOnCore (sep : List Char) : Nat → List Char → List Char → List (List Char)
  | _, [], acc => [acc.reverse]
  | 0, s, acc => [acc.reverse ++ s]
  | Nat.succ f, c :: rest, acc =>
      if sep.isPrefixOf (c :: rest) then
        acc.reverse :: splitOnCore sep f (List.drop (sep.length - 1) rest) []
      else
        splitOnCore sep f rest (c :: acc)

/-- Python `s.split(sep)` (the sources only ever pass non-empty separators). -/
def pySplit (s sep : String) : List String :=
  if sep.data.isEmpty then [s]
  else (splitOnCore sep.data s.data.length s.data []).map (fun l => String.mk l)

example : pySplit "a IDENTIFIER: b" "IDENTIFIER:" = ["a ", " b"] := by decide
example : pySplit "a\n\nb\n" "\n" = ["a", "", "b", ""] := by decide
example : pyContains "Resource Class: x" "Class:" = true := by decide
example : pyStrip "  hi \t" = "hi" := by decide
example : pyUpper "timeout_fail" = "TIMEOUT_FAIL" := by decide

/-! ## Error-report parser (`SSHManager.collect_errpt_data`) -/

/-- A raw parsed errpt entry: the Python `current_entry` dict.  The parser
only ever stores string values, and Python dict assignment keeps the
position of an existing key, so an insertion-ordered association list with
in-place update is a faithful model. -/
abbrev RawRec := List (String × String)

/-- Python `d.get(k)`-style lookup on the association list (first, and in
our usage only, binding of the key). -/
def lookupS (k : String) (r : RawRec) : Option String :=
  (r.find? (fun p => p.fst == k)).map (fun p => p.snd)

/-- Python `d[k] = v`: replace in place if the key exists, else append. -/
def setKey (r : RawRec) (k v : String) : RawRec :=
  if r.any (fun p => p.fst == k) then
    r.map (fun p => if p.fst == k then (k, v) else p)
  else r ++ [(k, v)]

/-- The field-prefix markers of `collect_errpt_data`, in the order of the
`elif` chain, paired with the dict key each branch assigns. -/
def errptMarkers : List (String × String) :=
  [("IDENTIFIER:", "error_id"),
   ("Timestamp:", "timestamp"),
   ("Sequence Number:", "sequence_number"),
   ("Machine Id:", "machine_id"),
   ("Node Id:", "node_id"),
   ("Class:", "class"),
   ("Type:", "type"),
   ("Resource Name:", "resource_name"),
   ("Resource Class:", "resource_class"),
   ("Resource Type:", "resource_type"),
   ("Location:", "location_code"),
   ("VPD:", "vpd"),
   ("Description:", "description"),
   ("Probable Causes:", "probable_causes"),
   ("User Causes:", "user_causes"),
   ("Install Causes:", "install_causes"),
   ("Failure Causes:", "failure_causes"),
   ("Recommended Actions:", "recommended_actions"),
   ("Detail Data:", "detail_data")]

/-- One non-blank (already stripped) line of the `elif` chain: the first
marker contained in the line wins; the branch stores `parts[1].strip()`
only when `len(parts) == 2`, i.e. when that marker occurs exactly once. -/
def errptFieldStep (r : RawRec) (line : String) : RawRec :=
  match errptMarkers.find? (fun m => pyContains line m.fst) with
  | some m =>
      let parts := pySplit line m.fst
      if parts.length == 2 then setKey r m.snd (pyStrip (parts.getD 1 "")) else r
  | none => r

/-- Does a stripped line make the `elif` chain store a field? -/
def lineStoresField (line : String) : Bool :=
  match errptMarkers.find? (fun m => pyContains line m.fst) with
  | some m => (pySplit line m.fst).length == 2
  | none => false

/-- The `for line in lines` loop of `collect_errpt_data` together with the
trailing `if current_entry: errpt_data.append(current_entry)`. -/
def errptLoop : List String → RawRec → List RawRec
  | [], cur => if cur = [] then [] else [cur]
  | l :: ls, cur =>
      let t := pyStrip l
      if t = "" then
        if cur = [] then errptLoop ls [] else cur :: errptLoop ls []
      else
        errptLoop ls (errptFieldStep cur t)

/-- `SSHManager.collect_errpt_data`, from the point where the remote
command output `stdout` is in hand. -/
def collect_errpt_data (stdout : String) : List RawRec :=
  errptLoop (pySplit stdout "\n") []

/-- The blank-line-delimited blocks of stripped non-blank lines, tracked
with the same accumulator discipline as the loop itself. -/
def errptBlocks : List String → List String → List (List String)
  | [], cur => if cur = [] then [] else [cur]
  | l :: ls, cur =>
      let t := pyStrip l
      if t = "" then
        if cur = [] then errptBlocks ls [] else cur :: errptBlocks ls []
      else
        errptBlocks ls (cur ++ [t])

/-- The record assembled from one block of stripped lines. -/
def blockRec (b : List String) : RawRec := b.foldl errptFieldStep []

example :
    collect_errpt_data "IDENTIFIER: AA\nDescription: dd\n\nClass: H\n" =
      [[("error_id", "AA"), ("description", "dd")], [("class", "H")]] := by decide
example : collect_errpt_data "IDENTIFIER: A IDENTIFIER: B" = [] := by decide
example :
    errptBlocks (pySplit "IDENTIFIER: AA\nDescription: dd\n\nClass: H\n" "\n") [] =
      [["IDENTIFIER: AA", "Description: dd"], ["Class: H"]] := by decide

/-! ## Severity classifier (`ErrptCollector._extract_severity`) -/

/-- `ErrptCollector._extract_severity`.  The guard `any(sev in upper ...)`
followed by the `for sev in ['H','S','M','L']` loop returns exactly the
first of the four letters present in the upper-cased id, so both are
rendered as one `find?`; when none is present the keyword chain runs. -/
def extract_severity (error_id : String) : String :=
  if error_id = "" then "UNKNOWN"
  else
    let u := pyUpper error_id
    match (["H", "S", "M", "L"].find? (fun sev => pyContains u sev)) with
    | some sev => sev
    | none =>
        if ["CRITICAL", "FATAL", "PANIC"].any (fun k => pyContains u k) then "H"
        else if ["ERROR", "FAIL"].any (fun k => pyContains u k) then "S"
        else if ["WARN", "WARNING"].any (fun k => pyContains u k) then "M"
        else "L"

example : extract_severity "HARDWARE_FAULT" = "H" := by decide
example : extract_severity "timeout_fail" = "M" := by decide
example : extract_severity "ABC123" = "L" := by decide
example : extract_severity "" = "UNKNOWN" := by decide

/-! ## Enrichment (`ErrptCollector._process_errpt_data`) -/

/-- A Python value stored in a processed record: the collectors only ever
store strings and the integer default `0` of `entry.get('sequence_number', 0)`. -/
inductive Value where
  | str : String → Value
  | int : Int → Value
deriving DecidableEq

/-- Python truthiness for the values that occur in processed records. -/
def truthy : Value → Bool
  | .str s => !(s == "")
  | .int n => !(n == 0)

/-- Lookup in a processed record. -/
def lookupV (k : String) (r : List (String × Value)) : Option Value :=
  (r.find? (fun p => p.fst == k)).map (fun p => p.snd)

/-- The server descriptor fields the collectors read. -/
structure Server where
  name : String
  hostname : String
deriving DecidableEq

/-- Python `entry.get(k, '')`. -/
def getS (e : RawRec) (k : String) : String := (lookupS k e).getD ""

/-- The `processed_entry` dict literal of `_process_errpt_data`, in
source order, before the falsy-value filter. -/
def errpt_processed_fields (entry : RawRec) (srv : Server) : List (String × Value) :=
  [("severity", Value.str (extract_severity (getS entry "error_id"))),
    ("error_id", Value.str (getS entry "error_id")),
    ("resource_name", Value.str (getS entry "resource_name")),
    ("description", Value.str (getS entry "description")),
    ("resource_type", Value.str (getS entry "resource_type")),
    ("resource_class", Value.str (getS entry "resource_class")),
    ("sequence_number",
      match lookupS "sequence_number" entry with
      | some s => Value.str s
      | none => Value.int 0),
    ("machine_id", Value.str (getS entry "machine_id")),
    ("node_id", Value.str (getS entry "node_id")),
    ("class", Value.str (getS entry "class")),
    ("type", Value.str (getS entry "type")),
    ("resource_id", Value.str (getS entry "resource_id")),
    ("logical_resource_id", Value.str (getS entry "logical_resource_id")),
    ("location_code", Value.str (getS entry "location_code")),
    ("vpd", Value.str (getS entry "vpd")),
    ("timestamp", Value.str (getS entry "timestamp")),
    ("probable_causes", Value.str (getS entry "probable_causes")),
    ("user_causes", Value.str (getS entry "user_causes")),
    ("install_causes", Value.str (getS entry "install_causes")),
    ("failure_causes", Value.str (getS entry "failure_causes")),
    ("recommended_actions", Value.str (getS entry "recommended_actions")),
    ("detail_data", Value.str (getS entry "detail_data")),
    ("server_name", Value.str srv.name),
    ("hostname", Value.str srv.hostname)]

/-- The body of the `for entry in errpt_data` loop of
`_process_errpt_data`: the dict literal, then the falsy-value drop
(`{k: v for k, v in ... if v}`). -/
def process_errpt_entry (entry : RawRec) (srv : Server) : List (String × Value) :=
  (errpt_processed_fields entry srv).filter (fun p => truthy p.snd)

/-- `ErrptCollector._process_errpt_data`. -/
def process_errpt_data (data : List RawRec) (srv : Server) : List (List (String × Value)) :=
  data.map (fun e => process_errpt_entry e srv)

example :
    process_errpt_data (collect_errpt_data "IDENTIFIER: ABC123\nDescription: disk fault\n")
        ⟨"s1", "h1"⟩ =
      [[("severity", Value.str "L"), ("error_id", Value.str "ABC123"),
        ("description", Value.str "disk fault"), ("server_name", Value.str "s1"),
        ("hostname", Value.str "h1")]] := by decide

/-! ## Collection results (`ErrptCollector.collect`, `SyslogCollector.collect`) -/

/-- The `{'success': ..., 'records_collected': ..., 'error_message': ...}`
dict both `collect` methods return. -/
structure CollectResult where
  success : Bool
  records_collected : Nat
  error_message : Option String
deriving DecidableEq

/-- `ErrptCollector.collect`, from the point where the raw ssh data is in
hand; the storage collaborator's `write_errpt_data` result is the boolean
`writeOk`. -/
def errpt_collect (data : List RawRec) (srv : Server) (writeOk : Bool) : CollectResult :=
  if data = [] then ⟨true, 0, none⟩
  else
    let processed := process_errpt_data data srv
    if writeOk then ⟨true, processed.length, none⟩
    else ⟨false, 0,
      some ("Failed to write error report data to database for " ++ srv.name)⟩

/-! ## The two fixed syslog regular expressions

`re.search` tries each start position from the left and returns the first
match.  For `(\w+)\[(\d+)\]` the greedy runs admit no backtracking (a
shorter `\w+` or `\d+` would be followed by a word character or digit, not
by the required bracket), so a match attempt at a position is: a non-empty
word-character run, `[`, a non-empty digit run, `]`.  For the timestamp
pattern `\[(\d{2}/\d{2}/\d{4}-\d{2}:\d{2}:\d{2}:\d{3})\]` every piece has
fixed width, so a match attempt is a literal left-to-right parse. -/

/-- Python `\w` (the messages in this code base are ASCII). -/
def isWordChar (c : Char) : Bool := c.isAlphanum || c == '_'

/-- One match attempt of `(\w+)\[(\d+)\]` at the head of `s`. -/
def matchProcessAt (s : List Char) : Option (String × String) :=
  let w := s.takeWhile isWordChar
  let rest := s.dropWhile isWordChar
  if w.isEmpty then none
  else
    match rest with
    | '[' :: r2 =>
        let d := r2.takeWhile Char.isDigit
        let r3 := r2.dropWhile Char.isDigit
        if d.isEmpty then none
        else
          match r3 with
          | ']' :: _ => some (String.mk w, String.mk d)
          | _ => none
    | _ => none

/-- `re.search(r'(\w+)\[(\d+)\]', s)`: groups 1 and 2 of the leftmost match. -/
def reSearchProcess : List Char → Option (String × String)
  | [] => none
  | c :: rest =>
      match matchProcessAt (c :: rest) with
      | some r => some r
      | none => reSearchProcess rest

/-- Is the character at index `i` a digit (`false` past the end)? -/
def digitAt (s : List Char) (i : Nat) : Bool := (s.getD i ' ').isDigit

/-- Is the character at index `i` the literal `c` (`false` past the end)? -/
def charAt (s : List Char) (i : Nat) (c : Char) : Bool := s.getD i ' ' == c

/-- One match attempt of the bracketed AIX timestamp pattern at the head
of `s`, returning group 1.  Every piece of the pattern has fixed width,
so the attempt checks each of the 25 positions in turn:
`[` `dd` `/` `dd` `/` `dddd` `-` `dd` `:` `dd` `:` `dd` `:` `ddd` `]`. -/
def matchAixTsAt (s : List Char) : Option String :=
  if charAt s 0 '[' &&
     digitAt s 1 && digitAt s 2 && charAt s 3 '/' &&
     digitAt s 4 && digitAt s 5 && charAt s 6 '/' &&
     digitAt s 7 && digitAt s 8 && digitAt s 9 && digitAt s 10 && charAt s 11 '-' &&
     digitAt s 12 && digitAt s 13 && charAt s 14 ':' &&
     digitAt s 15 && digitAt s 16 && charAt s 17 ':' &&
     digitAt s 18 && digitAt s 19 && charAt s 20 ':' &&
     digitAt s 21 && digitAt s 22 && digitAt s 23 && charAt s 24 ']' then
    some (String.mk ((s.drop 1).take 23))
  else none

/-- `re.search` of the AIX timestamp pattern: group 1 of the leftmost match. -/
def reSearchAixTs : List Char → Option String
  | [] => none
  | c :: rest =>
      match matchAixTsAt (c :: rest) with
      | some r => some r
      | none => reSearchAixTs rest

example : reSearchProcess ("Jan sshd[4521]: fail").data = some ("sshd", "4521") := by decide
example : reSearchAixTs ("x [01/02/2003-04:05:06:789] y").data =
    some "01/02/2003-04:05:06:789" := by decide
example : reSearchAixTs ("[01/02/2003] y").data = none := by decide

/-! ## Syslog classifiers (`SyslogCollector`) -/

/-- `SyslogCollector._determine_facility`. -/
def determine_facility (source message : String) : String :=
  let s := pyLower source
  let m := pyLower message
  if pyContains s "errlog" then "SYSTEM"
  else if pyContains s "conslog" then "CONSOLE"
  else if pyContains s "messages" then "SYSLOG"
  else if pyContains s "authlog" then "AUTH"
  else if pyContains s "mail" then "MAIL"
  else if pyContains s "cron" then "CRON"
  else if pyContains s "daemon" then "DAEMON"
  else if pyContains s "kern" then "KERNEL"
  else if pyContains s "user" then "USER"
  else if pyContains s "local" then "LOCAL"
  else if ["kernel", "driver", "module"].any (fun k => pyContains m k) then "KERNEL"
  else if ["auth", "login", "password", "su"].any (fun k => pyContains m k) then "AUTH"
  else if ["mail", "smtp", "pop", "imap"].any (fun k => pyContains m k) then "MAIL"
  else if ["cron", "at", "batch"].any (fun k => pyContains m k) then "CRON"
  else if ["daemon", "service", "inetd"].any (fun k => pyContains m k) then "DAEMON"
  else "UNKNOWN"

/-- `SyslogCollector._determine_priority`. -/
def determine_priority (message : String) : String :=
  let m := pyLower message
  if ["panic", "fatal", "emerg", "emergency"].any (fun k => pyContains m k) then "EMERG"
  else if ["alert", "critical", "crit"].any (fun k => pyContains m k) then "ALERT"
  else if ["error", "err", "fail", "failure"].any (fun k => pyContains m k) then "ERR"
  else if ["warn", "warning"].any (fun k => pyContains m k) then "WARNING"
  else if ["notice", "note"].any (fun k => pyContains m k) then "NOTICE"
  else if ["info", "information"].any (fun k => pyContains m k) then "INFO"
  else if ["debug", "trace"].any (fun k => pyContains m k) then "DEBUG"
  else "UNKNOWN"

/-- The `priority_to_level` dict of `_determine_log_level`. -/
def priority_to_level : List (String × String) :=
  [("EMERG", "CRITICAL"), ("ALERT", "CRITICAL"), ("ERR", "ERROR"),
   ("WARNING", "WARNING"), ("NOTICE", "INFO"), ("INFO", "INFO"), ("DEBUG", "DEBUG")]

/-- `SyslogCollector._determine_log_level`: recompute the priority, then
`priority_to_level.get(priority, 'INFO')`. -/
def determine_log_level (message : String) : String :=
  ((priority_to_level.find? (fun p => p.fst == determine_priority message)).map
    (fun p => p.snd)).getD "INFO"

/-- The `aix_components` table of `_extract_component`. -/
def aix_components : List String :=
  ["hacmp", "vios", "lpar", "aix", "power", "ibm",
   "network", "disk", "memory", "cpu", "filesystem",
   "security", "user", "group", "process", "service"]

/-- `SyslogCollector._extract_component`. -/
def extract_component (message : String) : String :=
  let m := pyLower message
  match aix_components.find? (fun c => pyContains m c) with
  | some c => pyUpper c
  | none =>
      match reSearchProcess message.data with
      | some pn =>
          match aix_components.find? (fun c => pyContains (pyLower pn.fst) c) with
          | some c => pyUpper c
          | none => "SYSTEM"
      | none => "SYSTEM"

/-- `SyslogCollector._determine_error_type`. -/
def determine_error_type (message : String) : String :=
  let m := pyLower message
  if ["timeout", "timed out"].any (fun k => pyContains m k) then "TIMEOUT"
  else if ["connection refused", "connection failed"].any (fun k => pyContains m k) then
    "CONNECTION_ERROR"
  else if ["permission denied", "access denied"].any (fun k => pyContains m k) then
    "PERMISSION_ERROR"
  else if ["file not found", "no such file"].any (fun k => pyContains m k) then "FILE_ERROR"
  else if ["out of memory", "memory full"].any (fun k => pyContains m k) then "MEMORY_ERROR"
  else if ["disk full", "no space"].any (fun k => pyContains m k) then "DISK_ERROR"
  else if ["network unreachable", "host unreachable"].any (fun k => pyContains m k) then
    "NETWORK_ERROR"
  else if ["service not available", "service down"].any (fun k => pyContains m k) then
    "SERVICE_ERROR"
  else "GENERAL"

/-! ## Syslog entry assembly (`SSHManager.collect_syslog_data`) -/

/-- One raw entry built by `collect_syslog_data` for a non-blank stripped
line of a log file. -/
structure SyslogRaw where
  source : String
  message : String
  timestamp : String
  facility : String
  priority : String
  process_id : String
  hostname : String
deriving DecidableEq

/-- `line[1:line.find(']')]`: the text strictly between the leading `[`
and the first `]`. -/
def extractBracketTs (line : String) : String :=
  String.mk ((line.data.drop 1).takeWhile (fun c => !(c == ']')))

/-- The entry-building body of `collect_syslog_data`: defaults, then the
anchored bracket check `line.startswith('[') and ']' in line` that
replaces the collection-time timestamp `now` by the bracketed slice. -/
def mk_syslog_entry (log_file line now hostname : String) : SyslogRaw :=
  let base : SyslogRaw :=
    { source := log_file, message := line, timestamp := now,
      facility := "UNKNOWN", priority := "UNKNOWN", process_id := "",
      hostname := hostname }
  if pyStartsWith line "[" && pyContains line "]" then
    { base with timestamp := extractBracketTs line }
  else base

/-- The per-file loop of `collect_syslog_data`: strip each line of the
`tail` output, skip blanks, and build an entry per remaining line. -/
def collect_syslog_file (log_file stdout now hostname : String) : List SyslogRaw :=
  (((pySplit stdout "\n").map pyStrip).filter (fun l => !(l == ""))).map
    (fun line => mk_syslog_entry log_file line now hostname)

/-! ## Syslog parsing and enrichment (`SyslogCollector`) -/

/-- The dict `_parse_log_message` returns.  In the embedding the `try`
body cannot raise, so the five classifier keys are always present and the
timestamp/process keys are present exactly when their regex matched. -/
structure ParsedMsg where
  timestamp : Option String
  process_name : Option String
  process_id : Option String
  facility : String
  priority : String
  log_level : String
  component : String
  error_type : String
deriving DecidableEq

/-- `SyslogCollector._parse_log_message`. -/
def parse_log_message (message source : String) : ParsedMsg :=
  { timestamp := reSearchAixTs message.data,
    process_name := (reSearchProcess message.data).map (fun p => p.fst),
    process_id := (reSearchProcess message.data).map (fun p => p.snd),
    facility := determine_facility source message,
    priority := determine_priority message,
    log_level := determine_log_level message,
    component := extract_component message,
    error_type := determine_error_type message }

/-- The `processed_entry` dict literal of `_process_syslog_data`, in
source order, before the falsy-value filter (note the timestamp is
`entry['timestamp']`, not the regex-extracted one). -/
def syslog_processed_fields (entry : SyslogRaw) (srv : Server) : List (String × Value) :=
  let parsed := parse_log_message entry.message entry.source
  [("source", Value.str entry.source),
    ("message", Value.str entry.message),
    ("timestamp", Value.str entry.timestamp),
    ("facility", Value.str parsed.facility),
    ("priority", Value.str parsed.priority),
    ("process_id", Value.str (parsed.process_id.getD "")),
    ("hostname", Value.str srv.hostname),
    ("server_name", Value.str srv.name),
    ("log_level", Value.str parsed.log_level),
    ("component", Value.str parsed.component),
    ("error_type", Value.str parsed.error_type),
    ("raw_message", Value.str entry.message)]

/-- The body of the `for entry in syslog_data` loop of
`_process_syslog_data`: the dict literal, then the falsy-value drop. -/
def process_syslog_entry (entry : SyslogRaw) (srv : Server) : List (String × Value) :=
  (syslog_processed_fields entry srv).filter (fun p => truthy p.snd)

/-- `SyslogCollector._process_syslog_data`. -/
def process_syslog_data (data : List SyslogRaw) (srv : Server) :
    List (List (String × Value)) :=
  data.map (fun e => process_syslog_entry e srv)

/-- `SyslogCollector.collect`, from the point where the raw ssh data is in
hand; the storage collaborator's `write_syslog_data` result is `writeOk`. -/
def syslog_collect (data : List SyslogRaw) (srv : Server) (writeOk : Bool) : CollectResult :=
  if data = [] then ⟨true, 0, none⟩
  else
    let processed := process_syslog_data data srv
    if writeOk then ⟨true, processed.length, none⟩
    else ⟨false, 0,
      some ("Failed to write system log data to database for " ++ srv.name)⟩

/-! ## Claim-side definitions

These two definitions follow the words of the specification, not the
source; they exist to be compared against the embedded code. -/

/-- Spec-side lookup of section 3: `log_level` as a function of
`priority` (`NOTICE`/`INFO` to `INFO`, `EMERG`/`ALERT` to `CRITICAL`,
`ERR` to `ERROR`, `WARNING` to `WARNING`, `DEBUG` to `DEBUG`, anything
unmapped to `INFO`). -/
def logLevel_spec (priority : String) : String :=
  if priority = "EMERG" ∨ priority = "ALERT" then "CRITICAL"
  else if priority = "ERR" then "ERROR"
  else if priority = "WARNING" then "WARNING"
  else if priority = "NOTICE" ∨ priority = "INFO" then "INFO"
  else if priority = "DEBUG" then "DEBUG"
  else "INFO"

/-- Spec-side timestamp rule claimed for syslog records: the value of the
embedded bracketed AIX-style timestamp found by unanchored pattern search
in the message, defaulting to the collection time when absent. -/
def claimedSyslogTimestamp (message now : String) : String :=
  match reSearchAixTs message.data with
  | some t => t
  | none => now

example :
    (parse_log_message "Jan sshd[4521]: authentication failure for user root"
      "/var/log/authlog").facility = "AUTH" := by decide
example :
    lookupV "timestamp"
      (process_syslog_entry
        (mk_syslog_entry "/var/adm/messages" "x [01/02/2003-04:05:06:789]" "NOW" "h1")
        ⟨"s1", "h1"⟩) = some (Value.str "NOW") := by decide

/-! ## Claim C2 -/

/-- C2 counterexample: the claim says `_extract_severity("timeout_fail")`
is `S` because `"TIMEOUT_FAIL"` contains none of H/S/M/L; in fact it
contains `M` (in `TIMEOUT`) and `L` (in `FAIL`), so the letter-presence
scan fires first and returns `M`, not `S`. -/
theorem severity_timeout_fail_cex :
    extract_severity "timeout_fail" = "M" ∧ ("M" : String) ≠ "S" := by decide

/-- C2 amended: `_extract_severity` returns `H` for `"HARDWARE_FAULT"`
(letter `H` present) and `M` for `"timeout_fail"` (its uppercasing
`"TIMEOUT_FAIL"` contains the letter `M`, the first of H/S/M/L present,
so the keyword fallback is never reached). -/
theorem severity_hardware_timeout_fail :
    extract_severity "HARDWARE_FAULT" = "H" ∧ extract_severity "timeout_fail" = "M" := by
  decide

/-! ## Claim C7 -/

/-- C7: parsing the entry with message
`"Jan sshd[4521]: authentication failure for user root"` and source
`/var/log/authlog` yields facility `AUTH` (source-path match), process id
`"4521"`, priority `ERR` (the `fail` keyword), and log level `ERROR`. -/
theorem authlog_entry_classification :
    (parse_log_message "Jan sshd[4521]: authentication failure for user root"
        "/var/log/authlog").facility = "AUTH" ∧
    (parse_log_message "Jan sshd[4521]: authentication failure for user root"
        "/var/log/authlog").process_id = some "4521" ∧
    (parse_log_message "Jan sshd[4521]: authentication failure for user root"
        "/var/log/authlog").priority = "ERR" ∧
    (parse_log_message "Jan sshd[4521]: authentication failure for user root"
        "/var/log/authlog").log_level = "ERROR" := by decide

/-! ## Claim C9 -/

/-- C9: the two-line input with no trailing blank line yields exactly one
record with `error_id = "ABC123"` and `description = "disk fault"`, the
severity classifier sends `"ABC123"` to the default `L`, and the processed
record carries exactly those fields plus the injected server identity. -/
theorem identifier_abc123_single_record :
    collect_errpt_data "IDENTIFIER: ABC123\nDescription: disk fault\n" =
      [[("error_id", "ABC123"), ("description", "disk fault")]] ∧
    extract_severity "ABC123" = "L" ∧
    process_errpt_data (collect_errpt_data "IDENTIFIER: ABC123\nDescription: disk fault\n")
        ⟨"s1", "h1"⟩ =
      [[("severity", Value.str "L"), ("error_id", Value.str "ABC123"),
        ("description", Value.str "disk fault"), ("server_name", Value.str "s1"),
        ("hostname", Value.str "h1")]] := by decide

/-! ## Claim C1, counterexample -/

/-- C1 counterexample: the input `"IDENTIFIER: A IDENTIFIER: B"` is one
non-empty block whose line contains the known marker `IDENTIFIER:`, yet
the parser emits zero records, not one: the marker occurs twice, so
`line.split` gives three parts, the `len(parts) == 2` guard fails, no
field is stored, and the empty accumulator is never emitted. -/
theorem errpt_marker_line_no_record_cex :
    errptBlocks (pySplit "IDENTIFIER: A IDENTIFIER: B" "\n") [] =
      [["IDENTIFIER: A IDENTIFIER: B"]] ∧
    pyContains "IDENTIFIER: A IDENTIFIER: B" "IDENTIFIER:" = true ∧
    collect_errpt_data "IDENTIFIER: A IDENTIFIER: B" = [] := by decide

/-! ## Claim C3, counterexample -/

/-- C3 counterexample: a `Sequence Number:` line stores the trimmed text
after the marker as a string; the claim says the emitted record's
`sequence_number` is the parsed integer, but the pipeline yields the
string value `"42"`, which is not the integer `42`. -/
theorem sequence_number_string_cex :
    process_errpt_data (collect_errpt_data "Sequence Number: 42") ⟨"s1", "h1"⟩ =
      [[("severity", Value.str "UNKNOWN"), ("sequence_number", Value.str "42"),
        ("server_name", Value.str "s1"), ("hostname", Value.str "h1")]] ∧
    Value.str "42" ≠ Value.int 42 := by decide

/-! ## Claim C4, counterexample -/

/-- C4 counterexample: the message carries a bracketed AIX timestamp found
by unanchored regex search, so the claim says the final record's timestamp
is that value; but the final record keeps the collection time `"NOW"`,
because the raw collector only honours a bracket at position 0 and the
regex-searched value of `_parse_log_message` is never copied into the
processed entry. -/
theorem syslog_timestamp_regex_unused_cex :
    lookupV "timestamp"
        (process_syslog_entry
          (mk_syslog_entry "/var/adm/messages" "x [01/02/2003-04:05:06:789]" "NOW" "h1")
          ⟨"s1", "h1"⟩) = some (Value.str "NOW") ∧
    claimedSyslogTimestamp "x [01/02/2003-04:05:06:789]" "NOW" =
      "01/02/2003-04:05:06:789" ∧
    ("NOW" : String) ≠ "01/02/2003-04:05:06:789" := by decide

/-! ## Claim C8 -/

/-- `_determine_priority` only ever returns one of its eight literals. -/
lemma determine_priority_mem (msg : String) :
    determine_priority msg ∈
      ["EMERG", "ALERT", "ERR", "WARNING", "NOTICE", "INFO", "DEBUG", "UNKNOWN"] := by
  simp only [determine_priority]
  split_ifs <;> simp

/-- C8: for every message, the derived log level is exactly the fixed
spec lookup applied to the derived priority (any unmapped priority,
`UNKNOWN` included, falling to `INFO`). -/
theorem log_level_lookup_of_priority (msg : String) :
    determine_log_level msg = logLevel_spec (determine_priority msg) := by
  have h := determine_priority_mem msg
  simp only [List.mem_cons, List.not_mem_nil, or_false] at h
  rcases h with h | h | h | h | h | h | h | h <;>
    · simp only [determine_log_level, logLevel_spec, h]
      decide

/-! ## Claim C5 -/

/-- Anything surviving the falsy-value filter is truthy. -/
lemma mem_filter_truthy {l : List (String × Value)} {p : String × Value}
    (hp : p ∈ l.filter (fun q => truthy q.snd)) : truthy p.snd = true :=
  (List.mem_filter.mp hp).2

/-- C5: after enrichment, no processed record of either collector keeps a
key with a falsy value: every surviving binding is truthy. -/
theorem processed_records_all_truthy (edata : List RawRec) (sdata : List SyslogRaw)
    (srv : Server) :
    (∀ r ∈ process_errpt_data edata srv, ∀ p ∈ r, truthy p.snd = true) ∧
    (∀ r ∈ process_syslog_data sdata srv, ∀ p ∈ r, truthy p.snd = true) := by
  constructor
  · intro r hr p hp
    obtain ⟨e, _, rfl⟩ := List.mem_map.mp hr
    exact mem_filter_truthy hp
  · intro r hr p hp
    obtain ⟨e, _, rfl⟩ := List.mem_map.mp hr
    exact mem_filter_truthy hp

/-- C5 witness at a concrete partial record. -/
theorem processed_records_all_truthy_witness :
    truthy (("severity", Value.str "L") : String × Value).snd = true :=
  (processed_records_all_truthy [[("error_id", "ABC123")]] [] ⟨"s1", "h1"⟩).1
    (process_errpt_entry [("error_id", "ABC123")] ⟨"s1", "h1"⟩) (by decide)
    ("severity", Value.str "L") (by decide)

/-! ## Claim C6 -/

/-- C6: for both collection kinds, when the parser produced at least one
processed record and the storage write returns false, the returned result
has `success = false` and `records_collected = 0`. -/
theorem write_failure_zero_records (edata : List RawRec) (sdata : List SyslogRaw)
    (srv : Server) (he : 0 < (process_errpt_data edata srv).length)
    (hs : 0 < (process_syslog_data sdata srv).length) :
    errpt_collect edata srv false =
      ⟨false, 0, some ("Failed to write error report data to database for " ++ srv.name)⟩ ∧
    syslog_collect sdata srv false =
      ⟨false, 0, some ("Failed to write system log data to database for " ++ srv.name)⟩ := by
  have he2 : ¬(edata = []) := by
    intro h
    subst h
    simp [process_errpt_data] at he
  have hs2 : ¬(sdata = []) := by
    intro h
    subst h
    simp [process_syslog_data] at hs
  constructor
  · simp [errpt_collect, he2]
  · simp [syslog_collect, hs2]

/-- C6 witness: one raw record of each kind, write refused. -/
theorem write_failure_zero_records_witness :
    errpt_collect [[("error_id", "X")]] ⟨"s1", "h1"⟩ false =
      ⟨false, 0,
        some ("Failed to write error report data to database for " ++
          Server.name ⟨"s1", "h1"⟩)⟩ ∧
    syslog_collect [⟨"/var/adm/messages", "m", "t", "UNKNOWN", "UNKNOWN", "", "h1"⟩]
        ⟨"s1", "h1"⟩ false =
      ⟨false, 0,
        some ("Failed to write system log data to database for " ++
          Server.name ⟨"s1", "h1"⟩)⟩ :=
  write_failure_zero_records [[("error_id", "X")]]
    [⟨"/var/adm/messages", "m", "t", "UNKNOWN", "UNKNOWN", "", "h1"⟩] ⟨"s1", "h1"⟩
    (by decide) (by decide)

/-! ## Lookup through the falsy-value filter -/

/-- If a key never occurs in a record, it does not occur after filtering. -/
lemma lookupV_filter_none (k : String) (l : List (String × Value))
    (h : ∀ p ∈ l, ¬(p.fst = k)) :
    lookupV k (l.filter (fun p => truthy p.snd)) = none := by
  simp only [lookupV]
  rw [List.find?_eq_none.mpr, Option.map_none']
  intro x hx
  have hxl : x ∈ l := List.mem_of_mem_filter hx
  simpa using h x hxl

/-- Looking a key up after the falsy-value filter: provided the key is
bound at most once, the binding survives exactly when it is truthy. -/
lemma lookupV_filter_truthy (l : List (String × Value)) (k : String)
    (h : (l.map Prod.fst).count k ≤ 1) :
    lookupV k (l.filter (fun p => truthy p.snd)) =
      match lookupV k l with
      | some v => if truthy v = true then some v else none
      | none => none := by
  induction l with
  | nil => rfl
  | cons a tl ih =>
    by_cases hk : a.fst = k
    · have hc0 : (tl.map Prod.fst).count k = 0 := by
        simp only [List.map_cons, List.count_cons, hk] at h
        simp at h
        omega
      have hnot : ∀ p ∈ tl, ¬(p.fst = k) := by
        intro p hp hpk
        exact absurd (List.mem_map.mpr ⟨p, hp, hpk⟩) (List.count_eq_zero.mp hc0)
      have hfind : lookupV k (a :: tl) = some a.snd := by
        simp [lookupV, List.find?_cons_of_pos, hk]
      by_cases hv : truthy a.snd = true
      · rw [List.filter_cons_of_pos (p := fun q : String × Value => truthy q.snd) hv, hfind]
        simp [lookupV, List.find?_cons_of_pos, hk, hv]
      · rw [List.filter_cons_of_neg (p := fun q : String × Value => truthy q.snd) (by simpa using hv), hfind]
        simp [hv, lookupV_filter_none k tl hnot]
    · have h2 : (tl.map Prod.fst).count k ≤ 1 := by
        simp only [List.map_cons, List.count_cons] at h
        omega
      have hstep : lookupV k (a :: tl) = lookupV k tl := by
        simp [lookupV, List.find?_cons_of_neg, hk]
      by_cases hv : truthy a.snd = true
      · have hskip :
            lookupV k (a :: tl.filter (fun p => truthy p.snd)) =
              lookupV k (tl.filter (fun p => truthy p.snd)) := by
          simp [lookupV, List.find?_cons_of_neg, hk]
        rw [List.filter_cons_of_pos (p := fun q : String × Value => truthy q.snd) hv, hskip, hstep]
        exact ih h2
      · rw [List.filter_cons_of_neg (p := fun q : String × Value => truthy q.snd) (by simpa using hv), hstep]
        exact ih h2

/-! ## Claim C3, amended -/

/-- C3 amended: the processed record's `sequence_number` is the raw
entry's value passed through unchanged as a string (never parsed to an
integer); when the raw entry has no such key the Python default is the
integer `0`, which is falsy and therefore dropped, and an empty stored
string is likewise dropped. -/
theorem sequence_number_passthrough (e : RawRec) (srv : Server) :
    lookupV "sequence_number" (process_errpt_entry e srv) =
      match lookupS "sequence_number" e with
      | some s => if s = "" then none else some (Value.str s)
      | none => none := by
  have hkeys : (errpt_processed_fields e srv).map Prod.fst =
      ["severity", "error_id", "resource_name", "description", "resource_type",
       "resource_class", "sequence_number", "machine_id", "node_id", "class", "type",
       "resource_id", "logical_resource_id", "location_code", "vpd", "timestamp",
       "probable_causes", "user_causes", "install_causes", "failure_causes",
       "recommended_actions", "detail_data", "server_name", "hostname"] := rfl
  rw [process_errpt_entry,
    lookupV_filter_truthy (errpt_processed_fields e srv) "sequence_number"
      (by rw [hkeys]; decide)]
  have hbase : lookupV "sequence_number" (errpt_processed_fields e srv) =
      some (match lookupS "sequence_number" e with
            | some s => Value.str s
            | none => Value.int 0) := rfl
  rw [hbase]
  cases h : lookupS "sequence_number" e with
  | none => simp [truthy]
  | some s =>
      by_cases hs : s = "" <;> simp [truthy, hs]

/-! ## Claim C4, amended -/

/-- The timestamp the raw collector stores for a stripped line. -/
lemma mk_syslog_entry_timestamp (log_file line now hostname : String) :
    (mk_syslog_entry log_file line now hostname).timestamp =
      if pyStartsWith line "[" && pyContains line "]" then extractBracketTs line
      else now := by
  simp only [mk_syslog_entry]
  split <;> rfl

/-- C4 amended: the final syslog record's timestamp comes from the raw
collector, not from the regex search of `_parse_log_message`: when the
stripped line starts with `[` and contains `]` it is the text between the
leading bracket and the first `]` (whatever its shape), otherwise the
collection time; an empty extracted value is dropped by the falsy filter. -/
theorem syslog_timestamp_from_raw_bracket (log_file line now hostname : String)
    (srv : Server) :
    lookupV "timestamp"
        (process_syslog_entry (mk_syslog_entry log_file line now hostname) srv) =
      (let t := if pyStartsWith line "[" && pyContains line "]" then extractBracketTs line
                else now
       if t = "" then none else some (Value.str t)) := by
  have hkeys : ∀ e : SyslogRaw, ∀ s : Server,
      (syslog_processed_fields e s).map Prod.fst =
        ["source", "message", "timestamp", "facility", "priority", "process_id",
         "hostname", "server_name", "log_level", "component", "error_type",
         "raw_message"] := fun e s => rfl
  rw [process_syslog_entry,
    lookupV_filter_truthy
      (syslog_processed_fields (mk_syslog_entry log_file line now hostname) srv)
      "timestamp" (by rw [hkeys]; decide)]
  have hbase : ∀ e : SyslogRaw, ∀ s : Server,
      lookupV "timestamp" (syslog_processed_fields e s) = some (Value.str e.timestamp) :=
    fun e s => rfl
  rw [hbase, mk_syslog_entry_timestamp]
  by_cases hc : (pyStartsWith line "[" && pyContains line "]") = true
  · by_cases hs : extractBracketTs line = "" <;> simp [hc, hs, truthy]
  · by_cases hs : now = "" <;> simp [hc, hs, truthy, Bool.not_eq_true]

/-! ## Claim C1: block correspondence for the errpt loop -/

/-- A line that stores nothing leaves the accumulator unchanged. -/
lemma fieldStep_not_stores (r : RawRec) (l : String)
    (h : lineStoresField l = false) : errptFieldStep r l = r := by
  unfold lineStoresField at h
  unfold errptFieldStep
  cases hf : errptMarkers.find? (fun m => pyContains l m.fst) with
  | none => rfl
  | some m =>
      rw [hf] at h
      have h2 : ((pySplit l m.fst).length == 2) = false := h
      simp [h2]

/-- `setKey` never returns the empty record. -/
lemma setKey_ne_nil (r : RawRec) (k v : String) : setKey r k v ≠ [] := by
  unfold setKey
  split
  · rename_i hany
    intro hc
    rw [List.map_eq_nil_iff] at hc
    subst hc
    simp at hany
  · simp

/-- A step never empties a non-empty accumulator. -/
lemma fieldStep_ne_nil (r : RawRec) (l : String) (h : ¬(r = [])) :
    errptFieldStep r l ≠ [] := by
  unfold errptFieldStep
  cases hf : errptMarkers.find? (fun m => pyContains l m.fst) with
  | none => exact h
  | some m =>
      by_cases hl : ((pySplit l m.fst).length == 2) = true
      · simp only [hl, if_true]
        exact setKey_ne_nil r m.snd (pyStrip ((pySplit l m.fst).getD 1 ""))
      · simp only [eq_false_of_ne_true hl, if_false]
        exact h

/-- A line that stores a field leaves a non-empty accumulator. -/
lemma fieldStep_stores_ne_nil (r : RawRec) (l : String)
    (h : lineStoresField l = true) : errptFieldStep r l ≠ [] := by
  unfold lineStoresField at h
  unfold errptFieldStep
  cases hf : errptMarkers.find? (fun m => pyContains l m.fst) with
  | none => rw [hf] at h; cases h
  | some m =>
      rw [hf] at h
      have h2 : ((pySplit l m.fst).length == 2) = true := h
      simp only [h2, if_true]
      exact setKey_ne_nil r m.snd (pyStrip ((pySplit l m.fst).getD 1 ""))

/-- Folding a block over a non-empty accumulator, or over a block with a
storing line, yields a non-empty record. -/
lemma foldl_fieldStep_ne_nil :
    ∀ (b : List String) (r : RawRec),
      (¬(r = []) ∨ b.any lineStoresField = true) →
      b.foldl errptFieldStep r ≠ [] := by
  intro b
  induction b with
  | nil =>
      intro r h
      rcases h with h | h
      · exact h
      · cases h
  | cons l ls ih =>
      intro r h
      rw [List.foldl_cons]
      by_cases hl : lineStoresField l = true
      · exact ih _ (Or.inl (fieldStep_stores_ne_nil r l hl))
      · rcases h with h | h
        · exact ih _ (Or.inl (fieldStep_ne_nil r l h))
        · rw [List.any_cons] at h
          rcases Bool.or_eq_true_iff.mp h with h | h
          · exact absurd h hl
          · exact ih _ (Or.inr h)

/-- A field-bearing block assembles into a non-empty record. -/
lemma blockRec_ne_nil (b : List String) (h : b.any lineStoresField = true) :
    blockRec b ≠ [] :=
  foldl_fieldStep_ne_nil b [] (Or.inr h)

/-- The loop emits exactly the records of the blocks, provided every
block (the pending accumulator included) stores at least one field. -/
lemma errptLoop_eq_blocks :
    ∀ (ls : List String) (cur : List String),
      (∀ b ∈ errptBlocks ls cur, b.any lineStoresField = true) →
      errptLoop ls (blockRec cur) = (errptBlocks ls cur).map blockRec := by
  intro ls
  induction ls with
  | nil =>
      intro cur h
      by_cases hc : cur = []
      · subst hc
        rfl
      · have hb : cur ∈ errptBlocks [] cur := by
          simp only [errptBlocks]
          simp [hc]
        have hne := blockRec_ne_nil cur (h cur hb)
        simp only [errptLoop, errptBlocks]
        simp [hc, hne]
  | cons l ls ih =>
      intro cur h
      by_cases ht : pyStrip l = ""
      · by_cases hc : cur = []
        · subst hc
          have heq : errptBlocks (l :: ls) ([] : List String) = errptBlocks ls [] := by
            simp only [errptBlocks]
            simp [ht]
          rw [heq] at h
          have hloop : errptLoop (l :: ls) (blockRec []) = errptLoop ls (blockRec []) := by
            simp only [errptLoop]
            simp [ht, blockRec]
          rw [hloop, ih [] h, heq]
        · have heq : errptBlocks (l :: ls) cur = cur :: errptBlocks ls [] := by
            simp only [errptBlocks]
            simp [ht, hc]
          have hne : ¬(blockRec cur = []) :=
            blockRec_ne_nil cur (h cur (heq ▸ List.mem_cons_self cur _))
          have htail : ∀ b ∈ errptBlocks ls [], b.any lineStoresField = true := by
            intro b hb
            exact h b (heq ▸ List.mem_cons_of_mem cur hb)
          have hloop : errptLoop (l :: ls) (blockRec cur) =
              blockRec cur :: errptLoop ls (blockRec []) := by
            simp only [errptLoop]
            simp [ht, blockRec]
            exact hne
          rw [hloop, heq, List.map_cons]
          have hnil : errptLoop ls (blockRec []) = (errptBlocks ls []).map blockRec :=
            ih [] htail
          rw [hnil]
      · have heq : errptBlocks (l :: ls) cur = errptBlocks ls (cur ++ [pyStrip l]) := by
          simp only [errptBlocks]
          simp [ht]
        have hfold : errptFieldStep (blockRec cur) (pyStrip l) =
            blockRec (cur ++ [pyStrip l]) := by
          unfold blockRec
          rw [List.foldl_append]
          rfl
        have hloop : errptLoop (l :: ls) (blockRec cur) =
            errptLoop ls (errptFieldStep (blockRec cur) (pyStrip l)) := by
          simp only [errptLoop]
          simp [ht]
        rw [hloop, hfold, heq]
        exact ih (cur ++ [pyStrip l]) (by rw [← heq]; exact h)

/-- A key present after `setKey` was the written key or already present. -/
lemma lookupS_setKey_isSome (r : RawRec) (k0 v k : String)
    (h : (lookupS k (setKey r k0 v)).isSome = true) :
    k = k0 ∨ (lookupS k r).isSome = true := by
  by_cases hk : k = k0
  · exact Or.inl hk
  · right
    unfold lookupS at h ⊢
    rw [Option.isSome_map'] at h ⊢
    rw [List.find?_isSome] at h ⊢
    obtain ⟨x, hx, hpx⟩ := h
    unfold setKey at hx
    split at hx
    · obtain ⟨y, hy, rfl⟩ := List.mem_map.mp hx
      by_cases hy0 : (y.fst == k0) = true
      · rw [if_pos hy0] at hpx
        simp at hpx
        exact absurd hpx.symm hk
      · rw [if_neg hy0] at hpx
        exact ⟨y, hy, hpx⟩
    · rcases List.mem_append.mp hx with hx | hx
      · exact ⟨x, hx, hpx⟩
      · simp at hx
        subst hx
        simp at hpx
        exact absurd hpx.symm hk

/-- A key present after one line step was stored by a marker contained in
that line, or was already present. -/
lemma lookupS_fieldStep_isSome (r : RawRec) (l k : String)
    (h : (lookupS k (errptFieldStep r l)).isSome = true) :
    (lookupS k r).isSome = true ∨
      ∃ m ∈ errptMarkers, m.snd = k ∧ pyContains l m.fst = true := by
  unfold errptFieldStep at h
  cases hf : errptMarkers.find? (fun m => pyContains l m.fst) with
  | none => rw [hf] at h; exact Or.inl h
  | some m =>
      rw [hf] at h
      by_cases hl : ((pySplit l m.fst).length == 2) = true
      · simp only [hl, if_true] at h
        rcases lookupS_setKey_isSome r m.snd _ k h with hk | hr
        · exact Or.inr ⟨m, List.mem_of_find?_eq_some hf, hk.symm,
            List.find?_some (p := fun q : String × String => pyContains l q.fst) hf⟩
        · exact Or.inl hr
      · simp only [eq_false_of_ne_true hl, if_false] at h
        exact Or.inl h

/-- A key present in a folded block was stored by a marker contained in
one of the block's lines, or was present before the fold. -/
lemma lookupS_foldl_isSome :
    ∀ (b : List String) (r : RawRec) (k : String),
      (lookupS k (b.foldl errptFieldStep r)).isSome = true →
      (lookupS k r).isSome = true ∨
        ∃ m ∈ errptMarkers, m.snd = k ∧ ∃ l ∈ b, pyContains l m.fst = true := by
  intro b
  induction b with
  | nil =>
      intro r k h
      exact Or.inl h
  | cons l ls ih =>
      intro r k h
      rw [List.foldl_cons] at h
      rcases ih _ k h with h1 | h2
      · rcases lookupS_fieldStep_isSome r l k h1 with h3 | h4
        · exact Or.inl h3
        · obtain ⟨m, hm, hks, hcon⟩ := h4
          exact Or.inr ⟨m, hm, hks, l, List.mem_cons_self l ls, hcon⟩
      · obtain ⟨m, hm, hks, l2, hl2, hcon⟩ := h2
        exact Or.inr ⟨m, hm, hks, l2, List.mem_cons_of_mem l hl2, hcon⟩

/-- Blank-only line lists produce no block. -/
lemma errptBlocks_all_blank :
    ∀ ls : List String, (∀ l ∈ ls, pyStrip l = "") → errptBlocks ls [] = [] := by
  intro ls
  induction ls with
  | nil => intro _; rfl
  | cons l ls ih =>
      intro h
      have ht := h l (List.mem_cons_self l ls)
      simp only [errptBlocks]
      simp [ht]
      exact ih (fun x hx => h x (List.mem_cons_of_mem l hx))

/-- C1 amended: when every blank-line-delimited block of the input has at
least one line that stores a field (its first contained marker occurring
exactly once in the line), the parser emits exactly the blocks' records,
in source order; each emitted record holds only keys whose markers are
contained in a line of its block; and blank-only input yields no record. -/
theorem errpt_field_bearing_blocks (text : String)
    (hb : ∀ b ∈ errptBlocks (pySplit text "\n") [], b.any lineStoresField = true) :
    collect_errpt_data text = (errptBlocks (pySplit text "\n") []).map blockRec ∧
    (∀ b ∈ errptBlocks (pySplit text "\n") [], ∀ k : String,
      (lookupS k (blockRec b)).isSome = true →
      ∃ m ∈ errptMarkers, m.snd = k ∧ ∃ l ∈ b, pyContains l m.fst = true) ∧
    ((∀ l ∈ pySplit text "\n", pyStrip l = "") → collect_errpt_data text = []) := by
  have hmain : collect_errpt_data text = (errptBlocks (pySplit text "\n") []).map blockRec :=
    errptLoop_eq_blocks (pySplit text "\n") [] hb
  refine ⟨hmain, ?_, ?_⟩
  · intro b _ k hk
    unfold blockRec at hk
    rcases lookupS_foldl_isSome b [] k hk with h0 | h
    · simp [lookupS] at h0
    · exact h
  · intro hblank
    rw [hmain, errptBlocks_all_blank _ hblank]
    rfl

/-- C1 witness: a two-block input with every block field-bearing. -/
theorem errpt_field_bearing_blocks_witness :
    collect_errpt_data "IDENTIFIER: AA\nDescription: dd\n\nClass: H\n" =
      (errptBlocks (pySplit "IDENTIFIER: AA\nDescription: dd\n\nClass: H\n" "\n") []).map
        blockRec :=
  (errpt_field_bearing_blocks "IDENTIFIER: AA\nDescription: dd\n\nClass: H\n"
    (by decide)).1

/-! ## Claim C10: the resource_class / resource_type branches are dead -/

/-- If `x ++ b` is a prefix of `s`, then `b` occurs in `s`. -/
lemma containsAux_of_isPrefixOf :
    ∀ (x b s : List Char), (x ++ b).isPrefixOf s = true → containsAux b s = true := by
  intro x
  induction x with
  | nil =>
      intro b s h
      rw [List.nil_append] at h
      cases s with
      | nil =>
          cases b with
          | nil => rfl
          | cons c cs => simp [List.isPrefixOf] at h
      | cons c rest =>
          unfold containsAux
          simp [h]
  | cons d x2 ih =>
      intro b s h
      cases s with
      | nil => simp [List.isPrefixOf] at h
      | cons c rest =>
          rw [List.cons_append] at h
          simp only [List.isPrefixOf, Bool.and_eq_true] at h
          unfold containsAux
          simp [ih b rest h.2]

/-- Occurrence of a concatenation implies occurrence of its right part. -/
lemma containsAux_append (a b : List Char) :
    ∀ s : List Char, containsAux (a ++ b) s = true → containsAux b s = true := by
  intro s
  induction s with
  | nil =>
      intro h
      unfold containsAux at h ⊢
      rcases List.append_eq_nil.mp (by simpa using h) with ⟨_, hb⟩
      simp [hb]
  | cons c rest ih =>
      intro h
      unfold containsAux at h
      rcases Bool.or_eq_true_iff.mp h with h1 | h1
      · exact containsAux_of_isPrefixOf a b (c :: rest) h1
      · have := ih h1
        simp [containsAux, this]

/-- A line containing `Resource Class:` contains `Class:`. -/
lemma pyContains_resource_class (l : String)
    (h : pyContains l "Resource Class:" = true) : pyContains l "Class:" = true := by
  unfold pyContains at h ⊢
  have hd : ("Resource Class:").data = ("Resource ").data ++ ("Class:").data := by decide
  rw [hd] at h
  exact containsAux_append _ _ _ h

/-- A line containing `Resource Type:` contains `Type:`. -/
lemma pyContains_resource_type (l : String)
    (h : pyContains l "Resource Type:" = true) : pyContains l "Type:" = true := by
  unfold pyContains at h ⊢
  have hd : ("Resource Type:").data = ("Resource ").data ++ ("Type:").data := by decide
  rw [hd] at h
  exact containsAux_append _ _ _ h

/-- When a line contains `Class:`, the first matching marker is one of the
six markers up to `Class:`, none of which stores a resource field. -/
lemma findMarker_of_class (l : String) (hC : pyContains l "Class:" = true) :
    ∃ m, errptMarkers.find? (fun p => pyContains l p.fst) = some m ∧
      ¬(m.snd = "resource_class") ∧ ¬(m.snd = "resource_type") := by
  cases h1 : pyContains l "IDENTIFIER:" with
  | true =>
      exact ⟨("IDENTIFIER:", "error_id"), by simp [errptMarkers, List.find?_cons, h1],
        by decide, by decide⟩
  | false =>
  cases h2 : pyContains l "Timestamp:" with
  | true =>
      exact ⟨("Timestamp:", "timestamp"),
        by simp [errptMarkers, List.find?_cons, h1, h2], by decide, by decide⟩
  | false =>
  cases h3 : pyContains l "Sequence Number:" with
  | true =>
      exact ⟨("Sequence Number:", "sequence_number"),
        by simp [errptMarkers, List.find?_cons, h1, h2, h3], by decide, by decide⟩
  | false =>
  cases h4 : pyContains l "Machine Id:" with
  | true =>
      exact ⟨("Machine Id:", "machine_id"),
        by simp [errptMarkers, List.find?_cons, h1, h2, h3, h4], by decide, by decide⟩
  | false =>
  cases h5 : pyContains l "Node Id:" with
  | true =>
      exact ⟨("Node Id:", "node_id"),
        by simp [errptMarkers, List.find?_cons, h1, h2, h3, h4, h5], by decide, by decide⟩
  | false =>
      exact ⟨("Class:", "class"),
        by simp [errptMarkers, List.find?_cons, h1, h2, h3, h4, h5, hC],
        by decide, by decide⟩

/-- When a line contains `Type:`, the first matching marker is one of the
seven markers up to `Type:`, none of which stores a resource field. -/
lemma findMarker_of_type (l : String) (hT : pyContains l "Type:" = true) :
    ∃ m, errptMarkers.find? (fun p => pyContains l p.fst) = some m ∧
      ¬(m.snd = "resource_class") ∧ ¬(m.snd = "resource_type") := by
  cases h1 : pyContains l "IDENTIFIER:" with
  | true =>
      exact ⟨("IDENTIFIER:", "error_id"), by simp [errptMarkers, List.find?_cons, h1],
        by decide, by decide⟩
  | false =>
  cases h2 : pyContains l "Timestamp:" with
  | true =>
      exact ⟨("Timestamp:", "timestamp"),
        by simp [errptMarkers, List.find?_cons, h1, h2], by decide, by decide⟩
  | false =>
  cases h3 : pyContains l "Sequence Number:" with
  | true =>
      exact ⟨("Sequence Number:", "sequence_number"),
        by simp [errptMarkers, List.find?_cons, h1, h2, h3], by decide, by decide⟩
  | false =>
  cases h4 : pyContains l "Machine Id:" with
  | true =>
      exact ⟨("Machine Id:", "machine_id"),
        by simp [errptMarkers, List.find?_cons, h1, h2, h3, h4], by decide, by decide⟩
  | false =>
  cases h5 : pyContains l "Node Id:" with
  | true =>
      exact ⟨("Node Id:", "node_id"),
        by simp [errptMarkers, List.find?_cons, h1, h2, h3, h4, h5], by decide, by decide⟩
  | false =>
  cases h6 : pyContains l "Class:" with
  | true =>
      exact ⟨("Class:", "class"),
        by simp [errptMarkers, List.find?_cons, h1, h2, h3, h4, h5, h6],
        by decide, by decide⟩
  | false =>
      exact ⟨("Type:", "type"),
        by simp [errptMarkers, List.find?_cons, h1, h2, h3, h4, h5, h6, hT],
        by decide, by decide⟩

/-- The first matching marker of a line never carries a resource key: a
line containing `Resource Class:`/`Resource Type:` also contains the
earlier marker `Class:`/`Type:`, which wins. -/
lemma findMarker_not_resource (l : String) (m : String × String)
    (hf : errptMarkers.find? (fun p => pyContains l p.fst) = some m) :
    ¬(m.snd = "resource_class") ∧ ¬(m.snd = "resource_type") := by
  have hm := List.mem_of_find?_eq_some hf
  have hp : pyContains l m.fst = true :=
    List.find?_some (p := fun q : String × String => pyContains l q.fst) hf
  constructor
  · intro hk
    have hmeq : m = ("Resource Class:", "resource_class") := by
      simp only [errptMarkers, List.mem_cons, List.not_mem_nil, or_false] at hm
      rcases hm with h|h|h|h|h|h|h|h|h|h|h|h|h|h|h|h|h|h|h <;> subst h <;>
        first
        | rfl
        | exact absurd hk (by decide)
    rw [hmeq] at hp hf
    have hC : pyContains l "Class:" = true := pyContains_resource_class l hp
    obtain ⟨m2, hf2, hn2, _⟩ := findMarker_of_class l hC
    rw [hf] at hf2
    have hm2 : m2 = ("Resource Class:", "resource_class") := by
      injection hf2 with h
      exact h.symm
    rw [hm2] at hn2
    exact hn2 rfl
  · intro hk
    have hmeq : m = ("Resource Type:", "resource_type") := by
      simp only [errptMarkers, List.mem_cons, List.not_mem_nil, or_false] at hm
      rcases hm with h|h|h|h|h|h|h|h|h|h|h|h|h|h|h|h|h|h|h <;> subst h <;>
        first
        | rfl
        | exact absurd hk (by decide)
    rw [hmeq] at hp hf
    have hT : pyContains l "Type:" = true := pyContains_resource_type l hp
    obtain ⟨m2, hf2, _, hn2⟩ := findMarker_of_type l hT
    rw [hf] at hf2
    have hm2 : m2 = ("Resource Type:", "resource_type") := by
      injection hf2 with h
      exact h.symm
    rw [hm2] at hn2
    exact hn2 rfl

/-- `setKey` with a different key preserves the absence of a key. -/
lemma lookupS_setKey_none (r : RawRec) (k0 v k : String) (hk : ¬(k = k0))
    (h : lookupS k r = none) : lookupS k (setKey r k0 v) = none := by
  unfold lookupS at h ⊢
  rw [Option.map_eq_none'] at h ⊢
  rw [List.find?_eq_none] at h ⊢
  intro x hx
  unfold setKey at hx
  split at hx
  · obtain ⟨y, hy, rfl⟩ := List.mem_map.mp hx
    by_cases hy0 : (y.fst == k0) = true
    · rw [if_pos hy0]
      simp
      exact fun hc => hk hc.symm
    · rw [if_neg hy0]
      exact h y hy
  · rcases List.mem_append.mp hx with hx | hx
    · exact h x hx
    · simp at hx
      subst hx
      simp
      exact fun hc => hk hc.symm

/-- One line step never introduces a resource_class / resource_type key. -/
lemma fieldStep_no_resource (r : RawRec) (l : String)
    (h1 : lookupS "resource_class" r = none) (h2 : lookupS "resource_type" r = none) :
    lookupS "resource_class" (errptFieldStep r l) = none ∧
    lookupS "resource_type" (errptFieldStep r l) = none := by
  unfold errptFieldStep
  cases hf : errptMarkers.find? (fun m => pyContains l m.fst) with
  | none => exact ⟨h1, h2⟩
  | some m =>
      have hns := findMarker_not_resource l m hf
      by_cases hl : ((pySplit l m.fst).length == 2) = true
      · simp only [hl, if_true]
        exact ⟨lookupS_setKey_none r m.snd _ _ (fun hc => hns.1 hc.symm) h1,
               lookupS_setKey_none r m.snd _ _ (fun hc => hns.2 hc.symm) h2⟩
      · simp only [eq_false_of_ne_true hl, if_false]
        exact ⟨h1, h2⟩

/-- No record the loop emits holds a resource_class / resource_type key. -/
lemma errptLoop_no_resource :
    ∀ (ls : List String) (cur : RawRec),
      lookupS "resource_class" cur = none → lookupS "resource_type" cur = none →
      ∀ r ∈ errptLoop ls cur,
        lookupS "resource_class" r = none ∧ lookupS "resource_type" r = none := by
  intro ls
  induction ls with
  | nil =>
      intro cur h1 h2 r hr
      simp only [errptLoop] at hr
      by_cases hc : cur = []
      · rw [if_pos hc] at hr
        simp at hr
      · rw [if_neg hc] at hr
        rw [List.mem_singleton] at hr
        subst hr
        exact ⟨h1, h2⟩
  | cons l ls ih =>
      intro cur h1 h2 r hr
      simp only [errptLoop] at hr
      by_cases ht : pyStrip l = ""
      · rw [if_pos ht] at hr
        by_cases hc : cur = []
        · rw [if_pos hc] at hr
          exact ih [] rfl rfl r hr
        · rw [if_neg hc] at hr
          rcases List.mem_cons.mp hr with hr1 | hr2
          · subst hr1
            exact ⟨h1, h2⟩
          · exact ih [] rfl rfl r hr2
      · rw [if_neg ht] at hr
        obtain ⟨hh1, hh2⟩ := fieldStep_no_resource cur (pyStrip l) h1 h2
        exact ih _ hh1 hh2 r hr

/-- C10: no record of the errpt pipeline, raw or processed, ever carries a
resource_class or resource_type field: any line containing those markers
also contains the earlier `Class:`/`Type:` marker, which wins, so the
branches are unreachable and the empty defaults are dropped by the falsy
filter. -/
theorem resource_class_type_unreachable (text : String) (srv : Server) :
    (∀ r ∈ collect_errpt_data text,
      lookupS "resource_class" r = none ∧ lookupS "resource_type" r = none) ∧
    (∀ pr ∈ process_errpt_data (collect_errpt_data text) srv,
      lookupV "resource_class" pr = none ∧ lookupV "resource_type" pr = none) := by
  have hraw := errptLoop_no_resource (pySplit text "\n") [] rfl rfl
  constructor
  · exact hraw
  · intro pr hpr
    obtain ⟨e, he, rfl⟩ := List.mem_map.mp hpr
    obtain ⟨he1, he2⟩ := hraw e he
    have hkeys : (errpt_processed_fields e srv).map Prod.fst =
        ["severity", "error_id", "resource_name", "description", "resource_type",
         "resource_class", "sequence_number", "machine_id", "node_id", "class", "type",
         "resource_id", "logical_resource_id", "location_code", "vpd", "timestamp",
         "probable_causes", "user_causes", "install_causes", "failure_causes",
         "recommended_actions", "detail_data", "server_name", "hostname"] := rfl
    constructor
    · rw [process_errpt_entry,
        lookupV_filter_truthy _ _ (by rw [hkeys]; decide)]
      have hb : lookupV "resource_class" (errpt_processed_fields e srv) =
          some (Value.str (getS e "resource_class")) := rfl
      rw [hb]
      have hg : getS e "resource_class" = "" := by
        unfold getS
        rw [he1]
        rfl
      rw [hg]
      simp [truthy]
    · rw [process_errpt_entry,
        lookupV_filter_truthy _ _ (by rw [hkeys]; decide)]
      have hb : lookupV "resource_type" (errpt_processed_fields e srv) =
          some (Value.str (getS e "resource_type")) := rfl
      rw [hb]
      have hg : getS e "resource_type" = "" := by
        unfold getS
        rw [he2]
        rfl
      rw [hg]
      simp [truthy]

/-- C10 witness: a `Resource Class:` line is stored under `class`. -/
theorem resource_class_type_unreachable_witness :
    lookupS "resource_class" [("class", "x")] = none ∧
    lookupS "resource_type" [("class", "x")] = none :=
  (resource_class_type_unreachable "Resource Class: x" ⟨"s1", "h1"⟩).1
    [("class", "x")] (by decide)
